import Mathlib

/-!
Verification of the real-time call-session coordinator of the e-health
backend (`src/sockets/callHandlers.js`).  The socket event handlers are
shallowly embedded as pure Lean functions over an explicit coordinator
state: the in-memory maps (`activeUsers`, `activeCalls`, `rateLimiter`)
become association lists keyed by strings, the durable Mongo collection
of `Call` documents becomes an append-only list of write records, and
each handler returns the updated state together with the list of
`socket.emit` / `io.to(..).emit` events it produced, in order.
-/

namespace Coord

/-- Status values stored in call records (the JS code uses the strings
"initiated", "accepted", "rejected", "ended"). -/
inductive CallStatus where
  | initiated
  | accepted
  | rejected
  | ended
  deriving DecidableEq, Repr

/-- One party of a call as stored in an `activeCalls` entry:
`{ id, name, socketId }`. -/
structure Party where
  id : String
  name : String
  socketId : String
  deriving DecidableEq, Repr

/-- An entry of the `activeCalls` map: the in-memory call session record
built in `initiate-call` (`callId`, `caller`, `callee`, `status`,
`startTime`).  Times are milliseconds since the epoch, as `Date.now()`. -/
structure CallInfo where
  callId : String
  caller : Party
  callee : Party
  status : CallStatus
  startTime : Nat
  deriving DecidableEq, Repr

/-- One write to the durable call store: `new Call(..).save()` or
`Call.findByIdAndUpdate(callId, {...})`.  Fields that a given write does
not set are `none`. -/
structure DurableWrite where
  callId : String
  status : CallStatus
  endTime : Option Nat := none
  duration : Option Nat := none
  deriving DecidableEq, Repr

/-- A rate-limiter window record `{ count, start }`. -/
structure RateRecord where
  count : Nat
  start : Nat
  deriving DecidableEq, Repr

/-- The authenticated identity attached to a socket (`socket.user`)
together with the socket id. -/
structure UserCtx where
  id : String
  name : String
  role : String
  socketId : String
  deriving DecidableEq, Repr

/-- The callee document returned by `User.findById(calleeId)`:
the fields `initiate-call` reads (`name`, `email`, `isOnline`,
`socketId`).  `name`/`socketId` are `none` when the document lacks a
truthy value for them. -/
structure DbUser where
  name : Option String
  email : String
  isOnline : Bool
  socketId : Option String
  deriving DecidableEq, Repr

/-- One emitted socket event.  `target` is the destination socket id,
`event` the event name; the optional fields model the payload pieces
the claims need (`callId`, `reason`, error `message`, the `from` socket
on relayed WebRTC events). -/
structure EmitEvent where
  target : String
  event : String
  callId : Option String := none
  reason : Option String := none
  message : Option String := none
  sender : Option String := none
  deriving DecidableEq, Repr

/-- The shared mutable state of the coordinator: the three in-memory
maps plus the durable store, the latter as an append-only log. -/
structure CoordState where
  activeUsers : List (String × UserCtx)
  activeCalls : List (String × CallInfo)
  rateLimiter : List (String × RateRecord)
  durable : List DurableWrite
  deriving DecidableEq, Repr

/-- `Map.get`: first entry with the given key (keys are unique in a JS
`Map`). -/
def mapLookup {α : Type} : List (String × α) → String → Option α
  | [], _ => none
  | (k, v) :: rest, key => if k = key then some v else mapLookup rest key

/-- `Map.set`: update in place when the key exists, append otherwise
(JS `Map` preserves insertion order). -/
def mapSet {α : Type} : List (String × α) → String → α → List (String × α)
  | [], key, v => [(key, v)]
  | (k, w) :: rest, key, v =>
      if k = key then (k, v) :: rest else (k, w) :: mapSet rest key v

/-- `Map.delete`: remove the entry with the given key. -/
def mapDelete {α : Type} : List (String × α) → String → List (String × α)
  | [], _ => []
  | (k, v) :: rest, key => if k = key then rest else (k, v) :: mapDelete rest key

/-- The fixed-window rate limiter `checkRateLimit(eventName)`:
window 1000 ms, limit 5, keyed by `socketId:eventName`.  Returns the
allow flag and the updated limiter map. -/
def checkRateLimit (rl : List (String × RateRecord)) (key : String) (now : Nat) :
    Bool × List (String × RateRecord) :=
  let record := (mapLookup rl key).getD { count := 0, start := now }
  if now - record.start > 1000 then
    (true, mapSet rl key { count := 1, start := now })
  else if record.count ≥ 5 then
    (false, rl)
  else
    (true, mapSet rl key { count := record.count + 1, start := record.start })

/-- `broadcastToAdmins`: emit the event to every active user whose role
is "admin". -/
def broadcastToAdmins (activeUsers : List (String × UserCtx)) (ev : String)
    (callId : Option String) (reason : Option String) : List EmitEvent :=
  activeUsers.filterMap fun kv =>
    if kv.2.role = "admin" then
      some { target := kv.1, event := ev, callId := callId, reason := reason }
    else none

/-- `broadcastToRole`: emit the event to every active user with the
given role. -/
def broadcastToRole (activeUsers : List (String × UserCtx)) (role ev : String) :
    List EmitEvent :=
  activeUsers.filterMap fun kv =>
    if kv.2.role = role then some { target := kv.1, event := ev } else none

/-- A `call-error` emission to the sender. -/
def callErr (user : UserCtx) (msg : String) : EmitEvent :=
  { target := user.socketId, event := "call-error", message := some msg }

/-- The duplicate-call screen of `initiate-call`: some active call has
this caller/callee pair (in either orientation) with status
"initiated". -/
def duplicateInitiated (calls : List (String × CallInfo)) (uid calleeId : String) :
    Bool :=
  calls.any fun kv =>
    decide ((kv.2.caller.id = uid ∧ kv.2.callee.id = calleeId ∧
              kv.2.status = CallStatus.initiated) ∨
            (kv.2.caller.id = calleeId ∧ kv.2.callee.id = uid ∧
              kv.2.status = CallStatus.initiated))

/-- The `initiate-call` handler.  `calleeDb` is the result of
`User.findById(calleeId)`, `newCallId` the id Mongo assigns to the new
`Call` document, `now` the current time in ms. -/
def initiateCall (user : UserCtx) (calleeId : String) (calleeDb : Option DbUser)
    (newCallId : String) (now : Nat) (st : CoordState) :
    CoordState × List EmitEvent :=
  let gate := checkRateLimit st.rateLimiter (user.socketId ++ ":initiate-call") now
  let st := { st with rateLimiter := gate.2 }
  if gate.1 = false then
    (st, [callErr user "Rate limit exceeded"])
  else if calleeId.length ≠ 24 then
    (st, [callErr user "Invalid callee ID"])
  else if calleeId = user.id then
    (st, [callErr user "Cannot call yourself"])
  else
    match calleeDb with
    | none => (st, [callErr user "User is offline"])
    | some callee =>
      match callee.socketId with
      | none => (st, [callErr user "User is offline"])
      | some calleeSid =>
        if callee.isOnline = false then
          (st, [callErr user "User is offline"])
        else if duplicateInitiated st.activeCalls user.id calleeId then
          (st, [callErr user "Call already in progress"])
        else
          let callInfo : CallInfo :=
            { callId := newCallId
              caller := { id := user.id, name := user.name, socketId := user.socketId }
              callee := { id := calleeId, name := callee.name.getD callee.email,
                          socketId := calleeSid }
              status := CallStatus.initiated
              startTime := now }
          let st := { st with
            activeCalls := mapSet st.activeCalls newCallId callInfo
            durable := st.durable ++ [{ callId := newCallId,
                                        status := CallStatus.initiated }] }
          (st, { target := calleeSid, event := "incoming-call",
                 callId := some newCallId, sender := some user.socketId } ::
               broadcastToAdmins st.activeUsers "new-call" (some newCallId) none)

/-- The `accept-call` handler. -/
def acceptCall (user : UserCtx) (callId : String) (now : Nat) (st : CoordState) :
    CoordState × List EmitEvent :=
  let gate := checkRateLimit st.rateLimiter (user.socketId ++ ":accept-call") now
  let st := { st with rateLimiter := gate.2 }
  if gate.1 = false then
    (st, [callErr user "Rate limit exceeded"])
  else if callId = "" then
    (st, [callErr user "Invalid call ID"])
  else
    match mapLookup st.activeCalls callId with
    | none => (st, [callErr user "Call not found"])
    | some call =>
      if call.callee.id ≠ user.id then
        (st, [callErr user "Not authorized to accept this call"])
      else
        let st := { st with
          activeCalls := mapSet st.activeCalls callId { call with status := CallStatus.accepted }
          durable := st.durable ++ [{ callId := callId, status := CallStatus.accepted }] }
        (st, { target := call.caller.socketId, event := "call-accepted",
               callId := some callId } ::
             { target := call.callee.socketId, event := "call-accepted",
               callId := some callId } ::
             broadcastToAdmins st.activeUsers "call-status-update" (some callId) none)

/-- The `reject-call` handler.  Note the silent `return`s: a missing or
non-string callId, an unknown callId and a sender who is not the callee
all produce no emission at all. -/
def rejectCall (user : UserCtx) (callId : String) (now : Nat) (st : CoordState) :
    CoordState × List EmitEvent :=
  let gate := checkRateLimit st.rateLimiter (user.socketId ++ ":reject-call") now
  let st := { st with rateLimiter := gate.2 }
  if gate.1 = false then
    (st, [callErr user "Rate limit exceeded"])
  else if callId = "" then
    (st, [])
  else
    match mapLookup st.activeCalls callId with
    | none => (st, [])
    | some call =>
      if call.callee.id ≠ user.id then
        (st, [])
      else
        let st := { st with
          durable := st.durable ++ [{ callId := callId, status := CallStatus.rejected,
                                      endTime := some now }]
          activeCalls := mapDelete st.activeCalls callId }
        (st, { target := call.caller.socketId, event := "call-rejected",
               callId := some callId } ::
             broadcastToAdmins st.activeUsers "call-ended" (some callId)
               (some "rejected"))

/-- The `end-call` handler. -/
def endCall (user : UserCtx) (callId : String) (now : Nat) (st : CoordState) :
    CoordState × List EmitEvent :=
  let gate := checkRateLimit st.rateLimiter (user.socketId ++ ":end-call") now
  let st := { st with rateLimiter := gate.2 }
  if gate.1 = false then
    (st, [callErr user "Rate limit exceeded"])
  else if callId = "" then
    (st, [])
  else
    match mapLookup st.activeCalls callId with
    | none => (st, [])
    | some call =>
      if user.id ≠ call.caller.id ∧ user.id ≠ call.callee.id then
        (st, [callErr user "Not authorized to end this call"])
      else
        let duration := (now - call.startTime) / 1000
        let st := { st with
          durable := st.durable ++ [{ callId := callId, status := CallStatus.ended,
                                      endTime := some now, duration := some duration }]
          activeCalls := mapDelete st.activeCalls callId }
        (st, { target := call.caller.socketId, event := "call-ended",
               callId := some callId } ::
             { target := call.callee.socketId, event := "call-ended",
               callId := some callId } ::
             broadcastToAdmins st.activeUsers "call-ended" (some callId) none)

/-- A WebRTC relay handler (`offer`, `answer`, `ice-candidate`): no
rate-limit gate, forwards the event to `target` tagged with the sender
socket id.  An empty (falsy) target is dropped silently. -/
def relayEvent (ev : String) (user : UserCtx) (target : String) (st : CoordState) :
    CoordState × List EmitEvent :=
  if target = "" then (st, [])
  else (st, [{ target := target, event := ev, sender := some user.socketId }])

/-- The `get-active-calls` handler: admin only, no rate-limit gate,
emits the snapshot of the active-calls table back to the sender. -/
def getActiveCalls (user : UserCtx) (st : CoordState) :
    CoordState × List EmitEvent :=
  if user.role ≠ "admin" then (st, [])
  else (st, [{ target := user.socketId, event := "active-calls" }])

/-- Whether a call involves the given socket id as caller or callee
(the disconnect loop's condition). -/
def callInvolves (sid : String) (c : CallInfo) : Bool :=
  decide (c.caller.socketId = sid ∨ c.callee.socketId = sid)

/-- The surviving counterpart socket of a call when `sid` disconnects. -/
def otherSocket (sid : String) (c : CallInfo) : String :=
  if c.caller.socketId = sid then c.callee.socketId else c.caller.socketId

/-- The cleanup loop of the `disconnect` handler: for every active call
involving the disconnecting socket, notify the counterpart with
`call-ended {reason: disconnect}`, write `{status: ended, endTime}` to
the durable store and drop the entry.  Returns the remaining table, the
emissions and the durable writes, in iteration order. -/
def disconnectLoop (sid : String) (now : Nat) :
    List (String × CallInfo) →
    List (String × CallInfo) × List EmitEvent × List DurableWrite
  | [] => ([], [], [])
  | (callId, call) :: rest =>
    if callInvolves sid call then
      let r := disconnectLoop sid now rest
      (r.1,
       { target := otherSocket sid call, event := "call-ended",
         callId := some callId, reason := some "disconnect" } :: r.2.1,
       { callId := callId, status := CallStatus.ended, endTime := some now } :: r.2.2)
    else
      let r := disconnectLoop sid now rest
      ((callId, call) :: r.1, r.2.1, r.2.2)

/-- The "notify others about this user going offline" step of the
disconnect handler: a doctor's disconnect is broadcast to employees, an
employee's to doctors, anyone else's to nobody. -/
def roleNotifications (user : UserCtx) (au : List (String × UserCtx)) :
    List EmitEvent :=
  if user.role = "doctor" then broadcastToRole au "employee" "user-disconnected"
  else if user.role = "employee" then broadcastToRole au "doctor" "user-disconnected"
  else []

/-- The `disconnect` handler: drop the registry entry, force-end every
live call involving this socket, then notify the counterpart role and
the admins about the presence change. -/
def disconnectHandler (user : UserCtx) (now : Nat) (st : CoordState) :
    CoordState × List EmitEvent :=
  let st := { st with activeUsers := mapDelete st.activeUsers user.socketId }
  let r := disconnectLoop user.socketId now st.activeCalls
  let st := { st with activeCalls := r.1, durable := st.durable ++ r.2.2 }
  let roleEms := roleNotifications user st.activeUsers
  let adminEms := broadcastToAdmins st.activeUsers "user-status-update" none none
  (st, r.2.1 ++ roleEms ++ adminEms)

/-- The `get-available-users` handler: rate-limit gate (note it emits
the generic "error" event on deny, not "call-error"), then the list of
online users of the complementary role. -/
def getAvailableUsers (user : UserCtx) (now : Nat) (st : CoordState) :
    CoordState × List EmitEvent :=
  let gate := checkRateLimit st.rateLimiter (user.socketId ++ ":get-available-users") now
  let st := { st with rateLimiter := gate.2 }
  if gate.1 = false then
    (st, [{ target := user.socketId, event := "error",
            message := some "Rate limit exceeded" }])
  else
    let role := if user.role = "doctor" then some "employee"
                else if user.role = "employee" then some "doctor" else none
    match role with
    | none => (st, [])
    | some _ => (st, [{ target := user.socketId, event := "available-users" }])

/-- The sequence of allow/deny answers the limiter gives to a list of
events of one kind from one socket, arriving at the given times. -/
def rateSequence (key : String) : List Nat → List (String × RateRecord) → List Bool
  | [], _ => []
  | t :: ts, rl =>
    (checkRateLimit rl key t).1 :: rateSequence key ts (checkRateLimit rl key t).2

/-- Recognizes the `call-ended {reason: disconnect}` notification for
call `cid` delivered to socket `tgt`. -/
def isDisconnectEnded (tgt cid : String) (e : EmitEvent) : Bool :=
  decide (e.target = tgt ∧ e.event = "call-ended" ∧ e.callId = some cid ∧
    e.reason = some "disconnect")

/-! ### Concrete fixtures (two users, a call between them) -/

/-- A 24-character user id for user A (Mongo ObjectId length). -/
def idA : String := "aaaaaaaaaaaaaaaaaaaaaaaa"

/-- A 24-character user id for user B. -/
def idB : String := "bbbbbbbbbbbbbbbbbbbbbbbb"

/-- User A, an employee on socket "sockA". -/
def userA : UserCtx := { id := idA, name := "A", role := "employee", socketId := "sockA" }

/-- User B, a doctor on socket "sockB". -/
def userB : UserCtx := { id := idB, name := "B", role := "doctor", socketId := "sockB" }

/-- User B's database document, online on socket "sockB". -/
def dbUserB : DbUser :=
  { name := some "B", email := "b@mail", isOnline := true, socketId := some "sockB" }

/-- The empty coordinator state. -/
def emptyState : CoordState :=
  { activeUsers := [], activeCalls := [], rateLimiter := [], durable := [] }

/-- A call session between A (caller) and B (callee) with the given
status, started at time 0, under call id "c1". -/
def callAB (s : CallStatus) : CallInfo :=
  { callId := "c1"
    caller := { id := idA, name := "A", socketId := "sockA" }
    callee := { id := idB, name := "B", socketId := "sockB" }
    status := s
    startTime := 0 }

/-- A state whose only active call is the A-to-B session "c1" with the
given status. -/
def stWith (s : CallStatus) : CoordState :=
  { emptyState with activeCalls := [("c1", callAB s)] }

/-- A state with an exhausted rate-limiter window (count 5 started at
time 0) for the "offer" kind on socket "sockA". -/
def stDenyOffer : CoordState :=
  { emptyState with rateLimiter := [("sockA:offer", { count := 5, start := 0 })] }

/-- A state whose rate limiter denies, at time 0, every gated event
kind for socket "sockA". -/
def stDenyAll : CoordState :=
  { emptyState with rateLimiter :=
      [("sockA:initiate-call", { count := 5, start := 0 }),
       ("sockA:accept-call", { count := 5, start := 0 }),
       ("sockA:reject-call", { count := 5, start := 0 }),
       ("sockA:end-call", { count := 5, start := 0 }),
       ("sockA:get-available-users", { count := 5, start := 0 })] }

/-! ### Rate limiter lemmas -/

theorem mapLookup_mapSet_self {α : Type} (l : List (String × α)) (k : String) (v : α) :
    mapLookup (mapSet l k v) k = some v := by
  induction l with
  | nil => simp [mapSet, mapLookup]
  | cons h t ih =>
    obtain ⟨k', w⟩ := h
    by_cases hk : k' = k <;> simp [mapSet, mapLookup, hk, ih]

theorem checkRateLimit_fresh (rl : List (String × RateRecord)) (key : String) (now : Nat)
    (h : mapLookup rl key = none) :
    checkRateLimit rl key now = (true, mapSet rl key { count := 1, start := now }) := by
  simp [checkRateLimit, h]

theorem checkRateLimit_within (rl : List (String × RateRecord)) (key : String)
    (now count start : Nat)
    (h : mapLookup rl key = some { count := count, start := start })
    (hw : now - start ≤ 1000) (hc : count < 5) :
    checkRateLimit rl key now =
      (true, mapSet rl key { count := count + 1, start := start }) := by
  simp only [checkRateLimit, h, Option.getD_some]
  rw [if_neg (by omega), if_neg (by omega)]

theorem checkRateLimit_deny (rl : List (String × RateRecord)) (key : String)
    (now count start : Nat)
    (h : mapLookup rl key = some { count := count, start := start })
    (hw : now - start ≤ 1000) (hc : 5 ≤ count) :
    checkRateLimit rl key now = (false, rl) := by
  simp only [checkRateLimit, h, Option.getD_some]
  rw [if_neg (by omega), if_pos (by omega)]

/-! ### C5: rate limiter exactness -/

/-- C5: with window 1000 ms and limit 5, six events of one kind from
one connection all arriving within one window of the first are answered
allow, allow, allow, allow, allow, deny; and an `initiate-call` that
the limiter denies mutates neither the call table nor the durable
store and emits exactly one "Rate limit exceeded" error to the sender. -/
theorem c5_rate_limiter_exact (key : String) (t0 t1 t2 t3 t4 t5 : Nat)
    (h1 : t1 ≤ t0 + 1000) (h2 : t2 ≤ t0 + 1000) (h3 : t3 ≤ t0 + 1000)
    (h4 : t4 ≤ t0 + 1000) (h5 : t5 ≤ t0 + 1000) :
    rateSequence key [t0, t1, t2, t3, t4, t5] [] =
      [true, true, true, true, true, false] ∧
    ∀ (user : UserCtx) (calleeId : String) (calleeDb : Option DbUser)
      (newCallId : String) (now : Nat) (st : CoordState),
      (checkRateLimit st.rateLimiter (user.socketId ++ ":initiate-call") now).1 = false →
      (initiateCall user calleeId calleeDb newCallId now st).1.activeCalls =
        st.activeCalls ∧
      (initiateCall user calleeId calleeDb newCallId now st).1.durable = st.durable ∧
      (initiateCall user calleeId calleeDb newCallId now st).2 =
        [callErr user "Rate limit exceeded"] := by
  constructor
  · have e0 : checkRateLimit [] key t0 =
        (true, [(key, { count := 1, start := t0 })]) := by
      rw [checkRateLimit_fresh _ _ _ (by simp [mapLookup])]; rfl
    have e1 : checkRateLimit [(key, ({ count := 1, start := t0 } : RateRecord))] key t1 =
        (true, [(key, { count := 2, start := t0 })]) := by
      rw [checkRateLimit_within _ _ _ 1 t0 (by simp [mapLookup]) (by omega) (by omega)]
      simp [mapSet]
    have e2 : checkRateLimit [(key, ({ count := 2, start := t0 } : RateRecord))] key t2 =
        (true, [(key, { count := 3, start := t0 })]) := by
      rw [checkRateLimit_within _ _ _ 2 t0 (by simp [mapLookup]) (by omega) (by omega)]
      simp [mapSet]
    have e3 : checkRateLimit [(key, ({ count := 3, start := t0 } : RateRecord))] key t3 =
        (true, [(key, { count := 4, start := t0 })]) := by
      rw [checkRateLimit_within _ _ _ 3 t0 (by simp [mapLookup]) (by omega) (by omega)]
      simp [mapSet]
    have e4 : checkRateLimit [(key, ({ count := 4, start := t0 } : RateRecord))] key t4 =
        (true, [(key, { count := 5, start := t0 })]) := by
      rw [checkRateLimit_within _ _ _ 4 t0 (by simp [mapLookup]) (by omega) (by omega)]
      simp [mapSet]
    have e5 : checkRateLimit [(key, ({ count := 5, start := t0 } : RateRecord))] key t5 =
        (false, [(key, { count := 5, start := t0 })]) :=
      checkRateLimit_deny _ _ _ 5 t0 (by simp [mapLookup]) (by omega) (by omega)
    simp [rateSequence, e0, e1, e2, e3, e4, e5]
  · intro user calleeId calleeDb newCallId now st hd
    refine ⟨?_, ?_, ?_⟩ <;> simp [initiateCall, hd, callErr]

/-- C5 witness: six concrete events at times 0,100,…,500 give five
allows then a deny, and a concrete denied initiate-call emits only the
rate-limit error. -/
theorem c5_rate_limiter_exact_witness :
    rateSequence "sockA:initiate-call" [0, 100, 200, 300, 400, 500] [] =
      [true, true, true, true, true, false] ∧
    (initiateCall userA idB (some dbUserB) "c9" 500
        { emptyState with
          rateLimiter := [("sockA:initiate-call", { count := 5, start := 0 })] }).2 =
      [callErr userA "Rate limit exceeded"] := by
  have h := c5_rate_limiter_exact "sockA:initiate-call" 0 100 200 300 400 500
    (by decide) (by decide) (by decide) (by decide) (by decide)
  exact ⟨h.1, (h.2 userA idB (some dbUserB) "c9" 500
    { emptyState with
      rateLimiter := [("sockA:initiate-call", { count := 5, start := 0 })] }
    (by decide)).2.2⟩

/-! ### C9: initiate-call atomicity on validation failure -/

/-- C9: every initiate-call that fails validation (self-call, callee
offline or absent, duplicate in-flight call) notifies the sender with
the specific error and leaves both the call table and the durable store
untouched; in particular a self-call always fails with the
"Cannot call yourself" error. -/
theorem c9_initiate_fail_atomic (user : UserCtx) (calleeId : String)
    (calleeDb : Option DbUser) (newCallId : String) (now : Nat) (st : CoordState)
    (hgate : (checkRateLimit st.rateLimiter
      (user.socketId ++ ":initiate-call") now).1 = true)
    (hlen : calleeId.length = 24) :
    (calleeId = user.id →
      (initiateCall user calleeId calleeDb newCallId now st).1.activeCalls =
        st.activeCalls ∧
      (initiateCall user calleeId calleeDb newCallId now st).1.durable = st.durable ∧
      (initiateCall user calleeId calleeDb newCallId now st).2 =
        [callErr user "Cannot call yourself"]) ∧
    (calleeId ≠ user.id →
      (calleeDb = none ∨
        ∃ c, calleeDb = some c ∧ (c.socketId = none ∨ c.isOnline = false)) →
      (initiateCall user calleeId calleeDb newCallId now st).1.activeCalls =
        st.activeCalls ∧
      (initiateCall user calleeId calleeDb newCallId now st).1.durable = st.durable ∧
      (initiateCall user calleeId calleeDb newCallId now st).2 =
        [callErr user "User is offline"]) ∧
    (∀ c sid, calleeId ≠ user.id → calleeDb = some c → c.socketId = some sid →
      c.isOnline = true →
      duplicateInitiated st.activeCalls user.id calleeId = true →
      (initiateCall user calleeId calleeDb newCallId now st).1.activeCalls =
        st.activeCalls ∧
      (initiateCall user calleeId calleeDb newCallId now st).1.durable = st.durable ∧
      (initiateCall user calleeId calleeDb newCallId now st).2 =
        [callErr user "Call already in progress"]) := by
  refine ⟨?_, ?_, ?_⟩
  · intro hself
    subst hself
    refine ⟨?_, ?_, ?_⟩ <;> simp [initiateCall, hgate, hlen]
  · intro hns hoff
    rcases hoff with hnone | ⟨c, hc, hbad⟩
    · subst hnone
      refine ⟨?_, ?_, ?_⟩ <;> simp [initiateCall, hgate, hlen, hns]
    · subst hc
      rcases hbad with hsid | hion
      · refine ⟨?_, ?_, ?_⟩ <;> simp [initiateCall, hgate, hlen, hns, hsid]
      · cases hcs : c.socketId with
        | none => refine ⟨?_, ?_, ?_⟩ <;> simp [initiateCall, hgate, hlen, hns, hcs]
        | some sid =>
          refine ⟨?_, ?_, ?_⟩ <;> simp [initiateCall, hgate, hlen, hns, hcs, hion]
  · intro c sid hns hdb hsid hon hdup
    subst hdb
    refine ⟨?_, ?_, ?_⟩ <;> simp [initiateCall, hgate, hlen, hns, hsid, hon, hdup]

/-- C9 witness: a concrete self-call by user A is rejected with
"Cannot call yourself" and changes nothing. -/
theorem c9_initiate_fail_atomic_witness :
    (initiateCall userA idA (some dbUserB) "c9" 0 emptyState).1.activeCalls =
      emptyState.activeCalls ∧
    (initiateCall userA idA (some dbUserB) "c9" 0 emptyState).1.durable =
      emptyState.durable ∧
    (initiateCall userA idA (some dbUserB) "c9" 0 emptyState).2 =
      [callErr userA "Cannot call yourself"] :=
  (c9_initiate_fail_atomic userA idA (some dbUserB) "c9" 0 emptyState
    (by decide) (by decide)).1 (by decide)

/-! ### Map lemmas for deletion -/

theorem mapLookup_eq_none_of_not_mem {α : Type} (l : List (String × α)) (k : String)
    (h : k ∉ l.map Prod.fst) : mapLookup l k = none := by
  induction l with
  | nil => rfl
  | cons hd t ih =>
    obtain ⟨k', v⟩ := hd
    simp only [List.map_cons, List.mem_cons, not_or] at h
    have hk : k' ≠ k := fun e => h.1 e.symm
    simp [mapLookup, hk, ih h.2]

theorem mapLookup_mapDelete_self {α : Type} (l : List (String × α)) (k : String)
    (h : (l.map Prod.fst).Nodup) : mapLookup (mapDelete l k) k = none := by
  induction l with
  | nil => rfl
  | cons hd t ih =>
    obtain ⟨k', v⟩ := hd
    simp only [List.map_cons, List.nodup_cons] at h
    by_cases hk : k' = k
    · subst hk
      simp only [mapDelete, if_pos rfl]
      exact mapLookup_eq_none_of_not_mem t k' h.1
    · simp [mapDelete, hk, mapLookup, ih h.2]

/-! ### C4: end-call authorization and effect -/

/-- C4: end-call on an existing session succeeds exactly when the
sender is the caller or the callee: on success the durable store
records status ended with duration floor((now − startTime)/1000)
seconds, the session leaves the table, and call-ended goes to both
parties; a third party gets the "Not authorized to end this call"
error and nothing changes. -/
theorem c4_end_call (user : UserCtx) (callId : String) (now : Nat) (st : CoordState)
    (call : CallInfo)
    (hgate : (checkRateLimit st.rateLimiter (user.socketId ++ ":end-call") now).1 = true)
    (hid : callId ≠ "")
    (hcall : mapLookup st.activeCalls callId = some call)
    (hnodup : (st.activeCalls.map Prod.fst).Nodup) :
    (user.id = call.caller.id ∨ user.id = call.callee.id →
      (endCall user callId now st).1.durable =
        st.durable ++ [{ callId := callId, status := CallStatus.ended,
                         endTime := some now,
                         duration := some ((now - call.startTime) / 1000) }] ∧
      mapLookup (endCall user callId now st).1.activeCalls callId = none ∧
      ({ target := call.caller.socketId, event := "call-ended",
         callId := some callId } : EmitEvent) ∈ (endCall user callId now st).2 ∧
      ({ target := call.callee.socketId, event := "call-ended",
         callId := some callId } : EmitEvent) ∈ (endCall user callId now st).2) ∧
    (user.id ≠ call.caller.id ∧ user.id ≠ call.callee.id →
      (endCall user callId now st).1.activeCalls = st.activeCalls ∧
      (endCall user callId now st).1.durable = st.durable ∧
      (endCall user callId now st).2 =
        [callErr user "Not authorized to end this call"]) := by
  refine ⟨?_, ?_⟩
  · intro hauth
    rcases hauth with h | h <;>
      refine ⟨?_, ?_, ?_, ?_⟩ <;>
        simp [endCall, hgate, hid, hcall, h,
          mapLookup_mapDelete_self st.activeCalls callId hnodup]
  · intro hne
    refine ⟨?_, ?_, ?_⟩ <;>
      simp [endCall, hgate, hid, hcall, hne.1, hne.2, callErr]

/-- C4 witness: user A ends the concrete accepted A-to-B call at time
7500 ms; the durable record shows duration 7 s, the call leaves the
table and both sockets get call-ended. -/
theorem c4_end_call_witness :
    (endCall userA "c1" 7500 (stWith CallStatus.accepted)).1.durable =
      (stWith CallStatus.accepted).durable ++
        [{ callId := "c1", status := CallStatus.ended, endTime := some 7500,
           duration := some 7 }] ∧
    mapLookup (endCall userA "c1" 7500
      (stWith CallStatus.accepted)).1.activeCalls "c1" = none ∧
    ({ target := "sockA", event := "call-ended", callId := some "c1" } : EmitEvent) ∈
      (endCall userA "c1" 7500 (stWith CallStatus.accepted)).2 ∧
    ({ target := "sockB", event := "call-ended", callId := some "c1" } : EmitEvent) ∈
      (endCall userA "c1" 7500 (stWith CallStatus.accepted)).2 :=
  (c4_end_call userA "c1" 7500 (stWith CallStatus.accepted)
    (callAB CallStatus.accepted) (by decide) (by decide) (by decide) (by decide)).1
    (Or.inl (by decide))

/-! ### C7: accept/reject by a non-callee -/

/-- C7 counterexample: user A is the caller, not the callee, of the
initiated call "c1"; A's reject-call is silently dropped — no
Unauthorized (nor any other) event is surfaced to A, refuting the claim
that both accept-call and reject-call surface Unauthorized. -/
theorem c7_counterexample :
    (callAB CallStatus.initiated).callee.id ≠ userA.id ∧
    mapLookup (stWith CallStatus.initiated).activeCalls "c1" =
      some (callAB CallStatus.initiated) ∧
    (rejectCall userA "c1" 0 (stWith CallStatus.initiated)).2 = [] ∧
    (rejectCall userA "c1" 0 (stWith CallStatus.initiated)).1.activeCalls =
      (stWith CallStatus.initiated).activeCalls ∧
    (rejectCall userA "c1" 0 (stWith CallStatus.initiated)).1.durable = [] := by
  decide

/-- C7 amended: an accept-call whose sender is not the session's callee
surfaces the "Not authorized to accept this call" error to the sender
and mutates nothing; a reject-call whose sender is not the callee also
mutates nothing but is silently ignored — no event is emitted at all. -/
theorem c7_non_callee_guard (user : UserCtx) (callId : String) (now : Nat)
    (st : CoordState) (call : CallInfo)
    (hgA : (checkRateLimit st.rateLimiter
      (user.socketId ++ ":accept-call") now).1 = true)
    (hgR : (checkRateLimit st.rateLimiter
      (user.socketId ++ ":reject-call") now).1 = true)
    (hid : callId ≠ "")
    (hcall : mapLookup st.activeCalls callId = some call)
    (hnc : call.callee.id ≠ user.id) :
    (acceptCall user callId now st).1.activeCalls = st.activeCalls ∧
    (acceptCall user callId now st).1.durable = st.durable ∧
    (acceptCall user callId now st).2 =
      [callErr user "Not authorized to accept this call"] ∧
    (rejectCall user callId now st).1.activeCalls = st.activeCalls ∧
    (rejectCall user callId now st).1.durable = st.durable ∧
    (rejectCall user callId now st).2 = [] := by
  refine ⟨?_, ?_, ?_, ?_, ?_, ?_⟩ <;>
    simp [acceptCall, rejectCall, hgA, hgR, hid, hcall, hnc, callErr]

/-- C7 witness: caller A acting on the concrete initiated call gets the
unauthorized error from accept-call and silence from reject-call. -/
theorem c7_non_callee_guard_witness :
    (acceptCall userA "c1" 0 (stWith CallStatus.initiated)).1.activeCalls =
      (stWith CallStatus.initiated).activeCalls ∧
    (acceptCall userA "c1" 0 (stWith CallStatus.initiated)).1.durable =
      (stWith CallStatus.initiated).durable ∧
    (acceptCall userA "c1" 0 (stWith CallStatus.initiated)).2 =
      [callErr userA "Not authorized to accept this call"] ∧
    (rejectCall userA "c1" 0 (stWith CallStatus.initiated)).1.activeCalls =
      (stWith CallStatus.initiated).activeCalls ∧
    (rejectCall userA "c1" 0 (stWith CallStatus.initiated)).1.durable =
      (stWith CallStatus.initiated).durable ∧
    (rejectCall userA "c1" 0 (stWith CallStatus.initiated)).2 = [] :=
  c7_non_callee_guard userA "c1" 0 (stWith CallStatus.initiated)
    (callAB CallStatus.initiated) (by decide) (by decide) (by decide) (by decide)
    (by decide)

/-! ### C8: unknown callId -/

/-- C8 counterexample: "zz" names no session, yet end-call (an explicit
action) surfaces nothing to the sender — it returns silently, refuting
the claim that explicit actions surface NotFound. -/
theorem c8_counterexample :
    mapLookup emptyState.activeCalls "zz" = none ∧
    (endCall userA "zz" 0 emptyState).2 = [] ∧
    (endCall userA "zz" 0 emptyState).1.activeCalls = [] ∧
    (endCall userA "zz" 0 emptyState).1.durable = [] ∧
    (rejectCall userA "zz" 0 emptyState).2 = [] := by
  decide

/-- C8 amended: on a callId absent from the table, accept-call surfaces
the "Call not found" error to the sender, while reject-call and
end-call silently ignore the event; in every case no state changes. -/
theorem c8_unknown_call_id (user : UserCtx) (callId : String) (now : Nat)
    (st : CoordState)
    (hgA : (checkRateLimit st.rateLimiter
      (user.socketId ++ ":accept-call") now).1 = true)
    (hgR : (checkRateLimit st.rateLimiter
      (user.socketId ++ ":reject-call") now).1 = true)
    (hgE : (checkRateLimit st.rateLimiter
      (user.socketId ++ ":end-call") now).1 = true)
    (hid : callId ≠ "")
    (hcall : mapLookup st.activeCalls callId = none) :
    (acceptCall user callId now st).1.activeCalls = st.activeCalls ∧
    (acceptCall user callId now st).1.durable = st.durable ∧
    (acceptCall user callId now st).2 = [callErr user "Call not found"] ∧
    (rejectCall user callId now st).1.activeCalls = st.activeCalls ∧
    (rejectCall user callId now st).1.durable = st.durable ∧
    (rejectCall user callId now st).2 = [] ∧
    (endCall user callId now st).1.activeCalls = st.activeCalls ∧
    (endCall user callId now st).1.durable = st.durable ∧
    (endCall user callId now st).2 = [] := by
  refine ⟨?_, ?_, ?_, ?_, ?_, ?_, ?_, ?_, ?_⟩ <;>
    simp [acceptCall, rejectCall, endCall, hgA, hgR, hgE, hid, hcall, callErr]

/-- C8 witness: the unknown callId "zz" against the empty state. -/
theorem c8_unknown_call_id_witness :
    (acceptCall userA "zz" 0 emptyState).2 = [callErr userA "Call not found"] ∧
    (rejectCall userA "zz" 0 emptyState).2 = [] ∧
    (endCall userA "zz" 0 emptyState).2 = [] :=
  have h := c8_unknown_call_id userA "zz" 0 emptyState (by decide) (by decide)
    (by decide) (by decide) (by decide)
  ⟨h.2.2.1, h.2.2.2.2.2.1, h.2.2.2.2.2.2.2.2⟩

/-! ### C6: which events pass through the rate limiter -/

/-- C6 counterexample: with the "offer" window for socket "sockA"
exhausted, the limiter's allow check answers deny — yet the offer
handler still relays the event to the target and touches no limiter
state, because offer (like answer, ice-candidate and get-active-calls)
is never gated. -/
theorem c6_counterexample :
    (checkRateLimit stDenyOffer.rateLimiter ("sockA" ++ ":offer") 0).1 = false ∧
    (relayEvent "offer" userA "sockB" stDenyOffer).2 =
      [{ target := "sockB", event := "offer", sender := some "sockA" }] ∧
    (relayEvent "offer" userA "sockB" stDenyOffer).1 = stDenyOffer ∧
    (getActiveCalls { userA with role := "admin" } stDenyOffer).2 =
      [{ target := "sockA", event := "active-calls" }] := by
  decide

/-- C6 amended: only get-available-users, initiate-call, accept-call,
reject-call and end-call pass through the rate limiter; when the check
denies one of them, processing stops with a single notification to the
sender and no table or durable mutation.  The WebRTC relays (offer,
answer, ice-candidate) and get-active-calls bypass the limiter
entirely: their behaviour never consults or changes any state. -/
theorem c6_rate_gate_coverage (user : UserCtx) (now : Nat) (st : CoordState)
    (calleeId newCallId callId ev target : String) (calleeDb : Option DbUser) :
    ((checkRateLimit st.rateLimiter (user.socketId ++ ":initiate-call") now).1 = false →
      (initiateCall user calleeId calleeDb newCallId now st).1.activeCalls =
        st.activeCalls ∧
      (initiateCall user calleeId calleeDb newCallId now st).1.durable = st.durable ∧
      (initiateCall user calleeId calleeDb newCallId now st).2 =
        [callErr user "Rate limit exceeded"]) ∧
    ((checkRateLimit st.rateLimiter (user.socketId ++ ":accept-call") now).1 = false →
      (acceptCall user callId now st).1.activeCalls = st.activeCalls ∧
      (acceptCall user callId now st).1.durable = st.durable ∧
      (acceptCall user callId now st).2 = [callErr user "Rate limit exceeded"]) ∧
    ((checkRateLimit st.rateLimiter (user.socketId ++ ":reject-call") now).1 = false →
      (rejectCall user callId now st).1.activeCalls = st.activeCalls ∧
      (rejectCall user callId now st).1.durable = st.durable ∧
      (rejectCall user callId now st).2 = [callErr user "Rate limit exceeded"]) ∧
    ((checkRateLimit st.rateLimiter (user.socketId ++ ":end-call") now).1 = false →
      (endCall user callId now st).1.activeCalls = st.activeCalls ∧
      (endCall user callId now st).1.durable = st.durable ∧
      (endCall user callId now st).2 = [callErr user "Rate limit exceeded"]) ∧
    ((checkRateLimit st.rateLimiter
        (user.socketId ++ ":get-available-users") now).1 = false →
      (getAvailableUsers user now st).1.activeCalls = st.activeCalls ∧
      (getAvailableUsers user now st).1.durable = st.durable ∧
      (getAvailableUsers user now st).2 =
        [{ target := user.socketId, event := "error",
           message := some "Rate limit exceeded" }]) ∧
    ((relayEvent ev user target st).1 = st ∧
      (target ≠ "" →
        (relayEvent ev user target st).2 =
          [{ target := target, event := ev, sender := some user.socketId }])) ∧
    (getActiveCalls user st).1 = st := by
  refine ⟨?_, ?_, ?_, ?_, ?_, ⟨?_, ?_⟩, ?_⟩
  · intro hd
    refine ⟨?_, ?_, ?_⟩ <;> simp [initiateCall, hd, callErr]
  · intro hd
    refine ⟨?_, ?_, ?_⟩ <;> simp [acceptCall, hd, callErr]
  · intro hd
    refine ⟨?_, ?_, ?_⟩ <;> simp [rejectCall, hd, callErr]
  · intro hd
    refine ⟨?_, ?_, ?_⟩ <;> simp [endCall, hd, callErr]
  · intro hd
    refine ⟨?_, ?_, ?_⟩ <;> simp [getAvailableUsers, hd]
  · unfold relayEvent
    split <;> rfl
  · intro ht
    simp [relayEvent, ht]
  · unfold getActiveCalls
    split <;> rfl

/-- C6 witness: against a state whose limiter denies every gated kind
for socket "sockA", each gated handler stops with the single
rate-limit notification, while the offer relay still goes through. -/
theorem c6_rate_gate_coverage_witness :
    (initiateCall userA idB (some dbUserB) "c2" 0 stDenyAll).2 =
      [callErr userA "Rate limit exceeded"] ∧
    (acceptCall userA "c1" 0 stDenyAll).2 = [callErr userA "Rate limit exceeded"] ∧
    (rejectCall userA "c1" 0 stDenyAll).2 = [callErr userA "Rate limit exceeded"] ∧
    (endCall userA "c1" 0 stDenyAll).2 = [callErr userA "Rate limit exceeded"] ∧
    (relayEvent "offer" userA "sockB" stDenyAll).2 =
      [{ target := "sockB", event := "offer", sender := some "sockA" }] :=
  have h := c6_rate_gate_coverage userA 0 stDenyAll idB "c2" "c1" "offer" "sockB"
    (some dbUserB)
  ⟨(h.1 (by decide)).2.2, (h.2.1 (by decide)).2.2, (h.2.2.1 (by decide)).2.2,
   (h.2.2.2.1 (by decide)).2.2, h.2.2.2.2.2.1.2 (by decide)⟩

/-! ### C1: the duplicate-call screen and pair uniqueness -/

theorem duplicateInitiated_iff (calls : List (String × CallInfo)) (uid calleeId : String) :
    duplicateInitiated calls uid calleeId = true ↔
      ∃ kv ∈ calls,
        ((kv.2.caller.id = uid ∧ kv.2.callee.id = calleeId) ∨
         (kv.2.caller.id = calleeId ∧ kv.2.callee.id = uid)) ∧
        kv.2.status = CallStatus.initiated := by
  simp only [duplicateInitiated, List.any_eq_true, decide_eq_true_eq]
  constructor
  · rintro ⟨kv, hm, hp⟩
    exact ⟨kv, hm, by tauto⟩
  · rintro ⟨kv, hm, hp⟩
    exact ⟨kv, hm, by tauto⟩

/-- C1 counterexample: the table holds the accepted (hence active)
session "c1" between A and B, yet a fresh initiate-call from A to B is
not rejected: it emits incoming-call, creates session "c2", and the
table then holds two sessions with status in {initiated, accepted} for
the unordered pair (A,B) — the pair-uniqueness invariant the claim
states is violated because the duplicate screen only checks status
"initiated". -/
theorem c1_counterexample :
    mapLookup (stWith CallStatus.accepted).activeCalls "c1" =
      some (callAB CallStatus.accepted) ∧
    (callAB CallStatus.accepted).caller.id = userA.id ∧
    (callAB CallStatus.accepted).callee.id = idB ∧
    (callAB CallStatus.accepted).status = CallStatus.accepted ∧
    (initiateCall userA idB (some dbUserB) "c2" 5000 (stWith CallStatus.accepted)).2 =
      [{ target := "sockB", event := "incoming-call", callId := some "c2",
         sender := some "sockA" }] ∧
    (initiateCall userA idB (some dbUserB) "c2" 5000
      (stWith CallStatus.accepted)).1.activeCalls.countP (fun kv =>
        decide ((kv.2.status = CallStatus.initiated ∨
                 kv.2.status = CallStatus.accepted) ∧
          ((kv.2.caller.id = idA ∧ kv.2.callee.id = idB) ∨
           (kv.2.caller.id = idB ∧ kv.2.callee.id = idA)))) = 2 := by
  decide

/-- C1 amended: initiate-call A→B is rejected with "Call already in
progress" exactly when some session between A and B (in either
orientation) with status "initiated" is in the table; a session with
status "accepted" does not block a new initiate-call, so only
initiated-status sessions are unique per unordered pair. -/
theorem c1_duplicate_screen (user : UserCtx) (calleeId : String) (c : DbUser)
    (sid newCallId : String) (now : Nat) (st : CoordState)
    (hgate : (checkRateLimit st.rateLimiter
      (user.socketId ++ ":initiate-call") now).1 = true)
    (hlen : calleeId.length = 24) (hns : calleeId ≠ user.id)
    (hsid : c.socketId = some sid) (hon : c.isOnline = true) :
    ((∃ kv ∈ st.activeCalls,
        ((kv.2.caller.id = user.id ∧ kv.2.callee.id = calleeId) ∨
         (kv.2.caller.id = calleeId ∧ kv.2.callee.id = user.id)) ∧
        kv.2.status = CallStatus.initiated) →
      (initiateCall user calleeId (some c) newCallId now st).1.activeCalls =
        st.activeCalls ∧
      (initiateCall user calleeId (some c) newCallId now st).1.durable =
        st.durable ∧
      (initiateCall user calleeId (some c) newCallId now st).2 =
        [callErr user "Call already in progress"]) ∧
    ((¬ ∃ kv ∈ st.activeCalls,
        ((kv.2.caller.id = user.id ∧ kv.2.callee.id = calleeId) ∨
         (kv.2.caller.id = calleeId ∧ kv.2.callee.id = user.id)) ∧
        kv.2.status = CallStatus.initiated) →
      mapLookup (initiateCall user calleeId (some c) newCallId now st).1.activeCalls
          newCallId =
        some { callId := newCallId
               caller := { id := user.id, name := user.name,
                           socketId := user.socketId }
               callee := { id := calleeId, name := c.name.getD c.email,
                           socketId := sid }
               status := CallStatus.initiated
               startTime := now } ∧
      (initiateCall user calleeId (some c) newCallId now st).1.durable =
        st.durable ++ [{ callId := newCallId, status := CallStatus.initiated }]) := by
  constructor
  · intro hex
    have hdup : duplicateInitiated st.activeCalls user.id calleeId = true :=
      (duplicateInitiated_iff st.activeCalls user.id calleeId).mpr hex
    refine ⟨?_, ?_, ?_⟩ <;>
      simp [initiateCall, hgate, hlen, hns, hsid, hon, hdup, callErr]
  · intro hnex
    have hdup : duplicateInitiated st.activeCalls user.id calleeId = false := by
      rcases h : duplicateInitiated st.activeCalls user.id calleeId with _ | _
      · rfl
      · exact absurd ((duplicateInitiated_iff st.activeCalls user.id calleeId).mp h)
          hnex
    constructor <;>
      simp [initiateCall, hgate, hlen, hns, hsid, hon, hdup,
        mapLookup_mapSet_self]

/-- C1 amended witness: with the initiated session "c1" between A and B
in the table, A's new initiate-call to B is rejected with "Call already
in progress" and nothing changes. -/
theorem c1_duplicate_screen_witness :
    (initiateCall userA idB (some dbUserB) "c2" 5000
      (stWith CallStatus.initiated)).1.activeCalls =
      (stWith CallStatus.initiated).activeCalls ∧
    (initiateCall userA idB (some dbUserB) "c2" 5000
      (stWith CallStatus.initiated)).1.durable =
      (stWith CallStatus.initiated).durable ∧
    (initiateCall userA idB (some dbUserB) "c2" 5000
      (stWith CallStatus.initiated)).2 =
      [callErr userA "Call already in progress"] :=
  (c1_duplicate_screen userA idB dbUserB "sockB" "c2" 5000
    (stWith CallStatus.initiated) (by decide) (by decide) (by decide) (by decide)
    (by decide)).1
    ⟨("c1", callAB CallStatus.initiated), by decide, by decide⟩

/-! ### C2: status guards on accept-call and reject-call -/

/-- C2 counterexample: the session "c1" already has status accepted,
yet its callee B can still reject it: the handler removes the session
and records status rejected with an end time — the transition
accepted→rejected the claim forbids.  (The handlers never check the
current status, only that the sender is the callee.) -/
theorem c2_counterexample :
    mapLookup (stWith CallStatus.accepted).activeCalls "c1" =
      some (callAB CallStatus.accepted) ∧
    (callAB CallStatus.accepted).status = CallStatus.accepted ∧
    (callAB CallStatus.accepted).callee.id = userB.id ∧
    (rejectCall userB "c1" 100 (stWith CallStatus.accepted)).1.activeCalls = [] ∧
    (rejectCall userB "c1" 100 (stWith CallStatus.accepted)).1.durable =
      [{ callId := "c1", status := CallStatus.rejected, endTime := some 100 }] ∧
    (rejectCall userB "c1" 100 (stWith CallStatus.accepted)).2 =
      [{ target := "sockA", event := "call-rejected", callId := some "c1" }] := by
  decide

/-- C2 amended: accept-call and reject-call check only that the sender
is the session's callee, never the current status: whatever the stored
status, the callee's accept-call sets it to accepted (so an accepted
session can be re-accepted) and the callee's reject-call removes the
session and records it rejected (so an accepted session can be
rejected).  No transition out of rejected or ended can occur through
these handlers only because terminal sessions leave the table. -/
theorem c2_callee_only_status_unchecked (user : UserCtx) (callId : String)
    (now : Nat) (st : CoordState) (call : CallInfo)
    (hgA : (checkRateLimit st.rateLimiter
      (user.socketId ++ ":accept-call") now).1 = true)
    (hgR : (checkRateLimit st.rateLimiter
      (user.socketId ++ ":reject-call") now).1 = true)
    (hid : callId ≠ "")
    (hcall : mapLookup st.activeCalls callId = some call)
    (hcallee : call.callee.id = user.id)
    (hnodup : (st.activeCalls.map Prod.fst).Nodup) :
    mapLookup (acceptCall user callId now st).1.activeCalls callId =
      some { call with status := CallStatus.accepted } ∧
    (acceptCall user callId now st).1.durable =
      st.durable ++ [{ callId := callId, status := CallStatus.accepted }] ∧
    mapLookup (rejectCall user callId now st).1.activeCalls callId = none ∧
    (rejectCall user callId now st).1.durable =
      st.durable ++ [{ callId := callId, status := CallStatus.rejected,
                       endTime := some now }] := by
  refine ⟨?_, ?_, ?_, ?_⟩ <;>
    simp [acceptCall, rejectCall, hgA, hgR, hid, hcall, hcallee,
      mapLookup_mapSet_self, mapLookup_mapDelete_self st.activeCalls callId hnodup]

/-- C2 amended witness: callee B re-accepts and rejects the concrete
session "c1" even though its status is already accepted. -/
theorem c2_callee_only_status_unchecked_witness :
    mapLookup (acceptCall userB "c1" 100
        (stWith CallStatus.accepted)).1.activeCalls "c1" =
      some { callAB CallStatus.accepted with status := CallStatus.accepted } ∧
    (acceptCall userB "c1" 100 (stWith CallStatus.accepted)).1.durable =
      (stWith CallStatus.accepted).durable ++
        [{ callId := "c1", status := CallStatus.accepted }] ∧
    mapLookup (rejectCall userB "c1" 100
        (stWith CallStatus.accepted)).1.activeCalls "c1" = none ∧
    (rejectCall userB "c1" 100 (stWith CallStatus.accepted)).1.durable =
      (stWith CallStatus.accepted).durable ++
        [{ callId := "c1", status := CallStatus.rejected, endTime := some 100 }] :=
  c2_callee_only_status_unchecked userB "c1" 100 (stWith CallStatus.accepted)
    (callAB CallStatus.accepted) (by decide) (by decide) (by decide) (by decide)
    (by decide) (by decide)

/-! ### Disconnect cleanup lemmas -/

theorem disconnectLoop_lookup_none (sid : String) (now : Nat) (cid : String) :
    ∀ l : List (String × CallInfo), cid ∉ l.map Prod.fst →
      mapLookup (disconnectLoop sid now l).1 cid = none := by
  intro l
  induction l with
  | nil => intro _; rfl
  | cons hd tl ih =>
    obtain ⟨k, c⟩ := hd
    intro h
    simp only [List.map_cons, List.mem_cons, not_or] at h
    have hk : k ≠ cid := fun e => h.1 e.symm
    by_cases hi : callInvolves sid c = true
    · simp [disconnectLoop, hi, ih h.2]
    · simp [disconnectLoop, hi, mapLookup, hk, ih h.2]

theorem disconnectLoop_count_zero (sid : String) (now : Nat) (tgt cid : String) :
    ∀ l : List (String × CallInfo), cid ∉ l.map Prod.fst →
      (disconnectLoop sid now l).2.1.countP (isDisconnectEnded tgt cid) = 0 := by
  intro l
  induction l with
  | nil => intro _; rfl
  | cons hd tl ih =>
    obtain ⟨k, c⟩ := hd
    intro h
    simp only [List.map_cons, List.mem_cons, not_or] at h
    have hk : k ≠ cid := fun e => h.1 e.symm
    by_cases hi : callInvolves sid c = true
    · simp [disconnectLoop, hi, List.countP_cons, isDisconnectEnded, hk, ih h.2]
    · simp [disconnectLoop, hi, ih h.2]

theorem disconnectLoop_spec (sid : String) (now : Nat) (cid : String)
    (call : CallInfo) :
    ∀ l : List (String × CallInfo), (l.map Prod.fst).Nodup →
      (cid, call) ∈ l → callInvolves sid call = true →
      mapLookup (disconnectLoop sid now l).1 cid = none ∧
      ({ callId := cid, status := CallStatus.ended, endTime := some now } :
        DurableWrite) ∈ (disconnectLoop sid now l).2.2 ∧
      (disconnectLoop sid now l).2.1.countP
        (isDisconnectEnded (otherSocket sid call) cid) = 1 := by
  intro l
  induction l with
  | nil => intro _ hmem _; exact absurd hmem (List.not_mem_nil _)
  | cons hd tl ih =>
    intro hnodup hmem hinv
    obtain ⟨k, c⟩ := hd
    simp only [List.map_cons, List.nodup_cons] at hnodup
    rcases List.mem_cons.mp hmem with heq | hmem'
    · injection heq with h1 h2
      subst h2
      subst h1
      refine ⟨?_, ?_, ?_⟩
      · simp only [disconnectLoop, hinv, if_pos]
        exact disconnectLoop_lookup_none sid now cid tl hnodup.1
      · simp [disconnectLoop, hinv]
      · simp [disconnectLoop, hinv, List.countP_cons, isDisconnectEnded,
          disconnectLoop_count_zero sid now (otherSocket sid call) cid tl hnodup.1]
    · have hcidmem : cid ∈ tl.map Prod.fst :=
        List.mem_map.mpr ⟨(cid, call), hmem', rfl⟩
      have hk : k ≠ cid := fun e => hnodup.1 (e ▸ hcidmem)
      obtain ⟨ih1, ih2, ih3⟩ := ih hnodup.2 hmem' hinv
      by_cases hi : callInvolves sid c = true
      · refine ⟨?_, ?_, ?_⟩
        · simp [disconnectLoop, hi, ih1]
        · simp only [disconnectLoop, hi, if_pos]
          exact List.mem_cons_of_mem _ ih2
        · simp [disconnectLoop, hi, List.countP_cons, isDisconnectEnded, hk, ih3]
      · refine ⟨?_, ?_, ?_⟩
        · simp [disconnectLoop, hi, mapLookup, hk, ih1]
        · simpa [disconnectLoop, hi] using ih2
        · simp [disconnectLoop, hi, ih3]

theorem disconnectLoop_durable_shape (sid : String) (now : Nat) :
    ∀ l : List (String × CallInfo), ∀ dw ∈ (disconnectLoop sid now l).2.2,
      dw.status = CallStatus.ended ∧ dw.endTime = some now ∧ dw.duration = none := by
  intro l
  induction l with
  | nil => intro dw h; exact absurd h (List.not_mem_nil _)
  | cons hd tl ih =>
    obtain ⟨k, c⟩ := hd
    intro dw h
    by_cases hi : callInvolves sid c = true
    · revert h
      simp only [disconnectLoop, hi, if_pos, List.mem_cons]
      rintro (rfl | h)
      · exact ⟨rfl, rfl, rfl⟩
      · exact ih dw h
    · revert h
      simp only [disconnectLoop, hi]
      rw [if_neg (by simp [hi])]
      intro h
      exact ih dw h

theorem countP_broadcastToRole_zero (au : List (String × UserCtx))
    (role ev tgt cid : String) :
    (broadcastToRole au role ev).countP (isDisconnectEnded tgt cid) = 0 := by
  rw [List.countP_eq_zero]
  intro e he
  simp only [broadcastToRole, List.mem_filterMap] at he
  obtain ⟨kv, hkv, hfe⟩ := he
  by_cases h : kv.2.role = role
  · rw [if_pos h] at hfe
    injection hfe with hfe
    subst hfe
    simp [isDisconnectEnded]
  · rw [if_neg h] at hfe
    cases hfe

theorem countP_broadcastToAdmins_none_zero (au : List (String × UserCtx))
    (ev tgt cid : String) :
    (broadcastToAdmins au ev none none).countP (isDisconnectEnded tgt cid) = 0 := by
  rw [List.countP_eq_zero]
  intro e he
  simp only [broadcastToAdmins, List.mem_filterMap] at he
  obtain ⟨kv, hkv, hfe⟩ := he
  by_cases h : kv.2.role = "admin"
  · rw [if_pos h] at hfe
    injection hfe with hfe
    subst hfe
    simp [isDisconnectEnded]
  · rw [if_neg h] at hfe
    cases hfe

theorem countP_roleNotifications_zero (user : UserCtx)
    (au : List (String × UserCtx)) (tgt cid : String) :
    (roleNotifications user au).countP (isDisconnectEnded tgt cid) = 0 := by
  unfold roleNotifications
  split
  · exact countP_broadcastToRole_zero au "employee" "user-disconnected" tgt cid
  · split
    · exact countP_broadcastToRole_zero au "doctor" "user-disconnected" tgt cid
    · rfl

/-! ### C3: disconnect drives live sessions to ended -/

/-- C3: when a socket that is caller or callee of a live session
disconnects, that session leaves the table, the durable store records
status ended with the disconnect time, and the surviving counterpart
socket receives exactly one `call-ended {reason: disconnect}`
notification for that call. -/
theorem c3_disconnect_cleanup (user : UserCtx) (now : Nat) (st : CoordState)
    (cid : String) (call : CallInfo)
    (hnodup : (st.activeCalls.map Prod.fst).Nodup)
    (hmem : (cid, call) ∈ st.activeCalls)
    (hinv : callInvolves user.socketId call = true) :
    mapLookup (disconnectHandler user now st).1.activeCalls cid = none ∧
    ({ callId := cid, status := CallStatus.ended, endTime := some now } :
      DurableWrite) ∈ (disconnectHandler user now st).1.durable ∧
    (disconnectHandler user now st).2.countP
      (isDisconnectEnded (otherSocket user.socketId call) cid) = 1 := by
  obtain ⟨h1, h2, h3⟩ :=
    disconnectLoop_spec user.socketId now cid call st.activeCalls hnodup hmem hinv
  refine ⟨?_, ?_, ?_⟩
  · simpa [disconnectHandler] using h1
  · simp only [disconnectHandler, List.mem_append]
    exact Or.inr h2
  · simp [disconnectHandler, List.countP_append, h3,
      countP_roleNotifications_zero, countP_broadcastToAdmins_none_zero]

/-- C3 witness: B (socket "sockB"), callee of the concrete initiated
session "c1", disconnects at time 42: the session leaves the table, the
durable store shows ended at 42, and caller socket "sockA" gets exactly
one disconnect-reason call-ended. -/
theorem c3_disconnect_cleanup_witness :
    mapLookup (disconnectHandler userB 42
      (stWith CallStatus.initiated)).1.activeCalls "c1" = none ∧
    ({ callId := "c1", status := CallStatus.ended, endTime := some 42 } :
      DurableWrite) ∈
      (disconnectHandler userB 42 (stWith CallStatus.initiated)).1.durable ∧
    (disconnectHandler userB 42 (stWith CallStatus.initiated)).2.countP
      (isDisconnectEnded "sockA" "c1") = 1 :=
  c3_disconnect_cleanup userB 42 (stWith CallStatus.initiated) "c1"
    (callAB CallStatus.initiated) (by decide) (by decide) (by decide)

/-! ### C10: disconnect-forced ends carry no duration -/

/-- C10: every durable write the disconnect handler adds sets status
ended and an end time but leaves the duration field unset, whereas an
explicit end-call's durable write sets status, endTime and duration. -/
theorem c10_disconnect_no_duration (user : UserCtx) (now : Nat) (st : CoordState)
    (user2 : UserCtx) (callId : String) (now2 : Nat) (st2 : CoordState)
    (call : CallInfo)
    (hgate : (checkRateLimit st2.rateLimiter
      (user2.socketId ++ ":end-call") now2).1 = true)
    (hid : callId ≠ "")
    (hcall : mapLookup st2.activeCalls callId = some call)
    (hauth : user2.id = call.caller.id ∨ user2.id = call.callee.id) :
    (∀ dw ∈ (disconnectHandler user now st).1.durable,
      dw ∈ st.durable ∨
        (dw.status = CallStatus.ended ∧ dw.endTime = some now ∧
          dw.duration = none)) ∧
    (endCall user2 callId now2 st2).1.durable =
      st2.durable ++ [{ callId := callId, status := CallStatus.ended,
                        endTime := some now2,
                        duration := some ((now2 - call.startTime) / 1000) }] := by
  constructor
  · intro dw hdw
    have hd : (disconnectHandler user now st).1.durable =
        st.durable ++ (disconnectLoop user.socketId now st.activeCalls).2.2 := by
      simp [disconnectHandler]
    rw [hd] at hdw
    rcases List.mem_append.mp hdw with h | h
    · exact Or.inl h
    · exact Or.inr (disconnectLoop_durable_shape user.socketId now st.activeCalls dw h)
  · rcases hauth with h | h <;> simp [endCall, hgate, hid, hcall, h]

/-- C10 witness: B's disconnect at 42 adds only duration-less ended
records, while A's explicit end-call at 7500 records duration 7 s. -/
theorem c10_disconnect_no_duration_witness :
    (∀ dw ∈ (disconnectHandler userB 42 (stWith CallStatus.initiated)).1.durable,
      dw ∈ (stWith CallStatus.initiated).durable ∨
        (dw.status = CallStatus.ended ∧ dw.endTime = some 42 ∧
          dw.duration = none)) ∧
    (endCall userA "c1" 7500 (stWith CallStatus.accepted)).1.durable =
      (stWith CallStatus.accepted).durable ++
        [{ callId := "c1", status := CallStatus.ended, endTime := some 7500,
           duration := some 7 }] :=
  c10_disconnect_no_duration userB 42 (stWith CallStatus.initiated) userA "c1" 7500
    (stWith CallStatus.accepted) (callAB CallStatus.accepted) (by decide)
    (by decide) (by decide) (Or.inl (by decide))

end Coord
